import Mathlib

set_option maxRecDepth 4000

/-!
Verification of the Binance P2P tax-report pipeline (`src/main.py`).

The program is a single straight-line pandas script:
load tabular files → normalize columns → filter completed trades →
aggregate the lexicographically maximal month → render an HTML report
plus a CSV side-file.

Shallow embedding conventions:
* a table cell is `Option String` (`none` models a pandas missing
  value); the source's `astype(str)` / `str(x)` coercions render a
  missing value as the string "nan", as pandas does, so after
  normalization only the float amount column can still be missing;
* Python floats are modelled by `ℚ` (the script only ever adds,
  subtracts, takes `max` with zero and multiplies by the 10% rate);
* string primitives (`strip`, `upper`, containment, lexicographic
  comparison) are re-implemented over `List Char` so that they compute
  by kernel reduction; they agree with Python's code-point semantics on
  the ASCII data the script handles;
* third-party parsers (`float(...)`, `dateutil.parser.parse`) are
  modelled on the plain decimal / ISO-like formats the exports use;
* file writes are modelled as an explicit list of performed writes, so
  "aborts before any output" is expressible.
-/

/-! ## Character-list string primitives (Python code-point semantics) -/

/-- Whitespace characters recognized by Python's `str.strip()` (the ASCII
ones, which are the only ones appearing in the data handled here). -/
def pyWs (c : Char) : Bool :=
  c == ' ' || c == '\t' || c == '\n' || c == '\r' || c == '\x0b' || c == '\x0c'

/-- Drop leading whitespace from a character list. -/
def dropWs : List Char → List Char
  | [] => []
  | c :: cs => if pyWs c then dropWs cs else c :: cs

/-- Python `str.strip()`: remove leading and trailing whitespace. -/
def pyStrip (s : String) : String :=
  ⟨((dropWs ((dropWs s.data).reverse)).reverse)⟩

/-- Python `str.upper()` (ASCII case folding, which matches Python on the
ASCII side values the script sees). -/
def pyUpper (s : String) : String :=
  ⟨s.data.map Char.toUpper⟩

/-- Python `str.lower()` (ASCII case folding). -/
def pyLower (s : String) : String :=
  ⟨s.data.map Char.toLower⟩

/-- Does the list start with the given pattern? -/
def startsWithChars : List Char → List Char → Bool
  | _, [] => true
  | [], _ :: _ => false
  | c :: cs, p :: ps => c == p && startsWithChars cs ps

/-- Does the list contain the pattern as a contiguous sublist? -/
def hasSubChars (p : List Char) : List Char → Bool
  | [] => startsWithChars [] p
  | c :: cs => startsWithChars (c :: cs) p || hasSubChars p cs

/-- Python `sub in s`. -/
def pyContains (s sub : String) : Bool :=
  hasSubChars sub.data s.data

/-- Python `s.startswith(p)`. -/
def pyStartsWith (s p : String) : Bool :=
  startsWithChars s.data p.data

/-- Lexicographic (code-point) comparison of character lists; this is the
order Python string comparison and hence `pandas.Series.max` use. -/
def charsLe : List Char → List Char → Bool
  | [], _ => true
  | _ :: _, [] => false
  | a :: as, b :: bs => if a < b then true else if b < a then false else charsLe as bs

/-- Lexicographic `≤` on strings, matching Python string comparison. -/
def strLeB (a b : String) : Bool :=
  charsLe a.data b.data

/-- Binary maximum in the lexicographic string order. -/
def strMax (a b : String) : String :=
  if strLeB a b then b else a

/-- Python `"".join`-style concatenation with a separator. -/
def joinSep (sep : String) : List String → String
  | [] => ""
  | [s] => s
  | s :: rest => s ++ sep ++ joinSep sep rest

/-- Split a character list at every occurrence of the separator. -/
def splitOnChar (c : Char) : List Char → List (List Char)
  | [] => [[]]
  | x :: xs =>
    if x == c then
      [] :: splitOnChar c xs
    else
      match splitOnChar c xs with
      | [] => [[x]]
      | h :: t => (x :: h) :: t

/-- Python `os.path.basename`: the part after the last slash. -/
def basename (p : String) : String :=
  ⟨(splitOnChar '/' p.data).getLast?.getD p.data⟩

/-! ## Digits and numbers -/

/-- Numeric value of a decimal digit character, if it is one. -/
def digitVal? (c : Char) : Option Nat :=
  if c.isDigit then some (c.toNat - 48) else none

/-- Value of a nonempty all-digit character list, `none` otherwise. -/
def parseDigits (l : List Char) : Option Nat :=
  match l with
  | [] => none
  | _ :: _ =>
    l.foldl
      (fun acc c =>
        match acc, digitVal? c with
        | some a, some d => some (a * 10 + d)
        | _, _ => none)
      (some 0)

/-- Decimal digits of `n`, most significant first (`fuel` bounds the
recursion; `fuel = n + 1` always suffices). -/
def natChars (fuel n : Nat) : List Char :=
  match fuel with
  | 0 => []
  | fuel + 1 =>
    if n < 10 then [Char.ofNat (48 + n)]
    else natChars fuel (n / 10) ++ [Char.ofNat (48 + n % 10)]

/-- Decimal rendering of a natural number. -/
def natToStr (n : Nat) : String :=
  ⟨natChars (n + 1) n⟩

/-- Decimal rendering of an integer. -/
def intToStr (i : ℤ) : String :=
  match i with
  | .ofNat n => natToStr n
  | .negSucc n => "-" ++ natToStr (n + 1)

/-- Zero-pad to two digits (as `strftime` "%m" does). -/
def pad2 (n : Nat) : String :=
  if n < 10 then "0" ++ natToStr n else natToStr n

/-- Zero-pad to four digits (as `strftime` "%Y" does). -/
def pad4 (n : Nat) : String :=
  if n < 10 then "000" ++ natToStr n
  else if n < 100 then "00" ++ natToStr n
  else if n < 1000 then "0" ++ natToStr n
  else natToStr n

/-- Rational value `sg * (ip * 10^k + fp) / 10^k`, the reading of a sign,
an integer part, a fractional part of `k` digits. -/
def ratOfParts (sg : ℤ) (ip fp k : Nat) : ℚ :=
  (sg : ℚ) * (((ip * 10 ^ k + fp : Nat) : ℤ) : ℚ) / (10 : ℚ) ^ k

/-- Split a character list at the first dot, if any. -/
def splitDot : List Char → List Char × Option (List Char)
  | [] => ([], none)
  | c :: r =>
    if c == '.' then ([], some r)
    else
      match splitDot r with
      | (a, b) => (c :: a, b)

/-- Models Python `float(...)` on the plain decimal literals appearing in
the exports: optional surrounding whitespace, optional sign, digits with
at most one decimal point and at least one digit.  Exotic float syntax
(exponents, `inf`, `nan`) is outside the modelled fragment. -/
def parseFloat (s : String) : Option ℚ :=
  let l := (pyStrip s).data
  let sl : ℤ × List Char :=
    match l with
    | '+' :: r => (1, r)
    | '-' :: r => (-1, r)
    | r => (1, r)
  let ipfp := splitDot sl.2
  let fp := ipfp.2.getD []
  if ipfp.1.isEmpty && fp.isEmpty then none
  else
    match parseDigits ipfp.1, parseDigits fp with
    | some ip, some f => some (ratOfParts sl.1 ip f fp.length)
    | some ip, none => if fp.isEmpty then some (ratOfParts sl.1 ip 0 0) else none
    | none, some f => if ipfp.1.isEmpty then some (ratOfParts sl.1 0 f fp.length) else none
    | none, none => none

/-! ## Timestamps -/

/-- A parsed (naive, timezone-free) point in time, as produced by
`dateutil.parser.parse` on the exports' ISO-like timestamps. -/
structure Timestamp where
  year : Nat
  month : Nat
  day : Nat
  hour : Nat
  minute : Nat
  second : Nat
deriving DecidableEq

/-- Linearization of a timestamp for chronological comparison. -/
def Timestamp.key (t : Timestamp) : Nat :=
  ((((t.year * 13 + t.month) * 32 + t.day) * 24 + t.hour) * 60 + t.minute) * 60 + t.second

/-- Parse "HH:MM" or "HH:MM:SS". -/
def parseTimePart (l : List Char) : Option (Nat × Nat × Nat) :=
  match splitOnChar ':' l with
  | [hh, mm] =>
    match parseDigits hh, parseDigits mm with
    | some h, some m => if h < 24 && m < 60 then some (h, m, 0) else none
    | _, _ => none
  | [hh, mm, ss] =>
    match parseDigits hh, parseDigits mm, parseDigits ss with
    | some h, some m, some s => if h < 24 && m < 60 && s < 60 then some (h, m, s) else none
    | _, _, _ => none
  | _ => none

/-- Parse "YYYY-MM-DD". -/
def parseDatePart (l : List Char) : Option (Nat × Nat × Nat) :=
  match splitOnChar '-' l with
  | [yy, mm, dd] =>
    match parseDigits yy, parseDigits mm, parseDigits dd with
    | some y, some m, some d =>
      if 1 ≤ m && m ≤ 12 && 1 ≤ d && d ≤ 31 then some (y, m, d) else none
    | _, _, _ => none
  | _ => none

/-- Models `dateutil.parser.parse` on the ISO-like timestamps of the
exports: "YYYY-MM-DD", optionally followed by a space and "HH:MM[:SS]".
The parser is naive (no timezone conversion), as in the source. -/
def parseTimestamp (s : String) : Option Timestamp :=
  match splitOnChar ' ' (pyStrip s).data with
  | [d] =>
    match parseDatePart d with
    | some (y, mo, dd) => some ⟨y, mo, dd, 0, 0, 0⟩
    | none => none
  | [d, t] =>
    match parseDatePart d, parseTimePart t with
    | some (y, mo, dd), some (h, mi, se) => some ⟨y, mo, dd, h, mi, se⟩
    | _, _ => none
  | _ => none

/-- `strftime("%Y-%m")` of a parsed timestamp: the zero-padded
year-month key used for month grouping. -/
def monthOf (t : Timestamp) : String :=
  pad4 t.year ++ "-" ++ pad2 t.month

/-! ## Error taxonomy and input model -/

/-- The hard errors of the pipeline (`KeyError` from `pick_col`,
`ValueError` from `astype(float)`, `dateutil` parse errors, unreadable
input files, and the `AttributeError` raised by the `.dt` accessor at
line 78 of the source when no row of a file survives the filter and
`dropna`, so that the `dt` column is empty and not datetimelike).
Each aborts the whole run. -/
inductive PipelineError where
  | unreadableFile (path : String)
  | missingColumn (tried : List String) (header : List String)
  | invalidAmount (raw : String)
  | invalidTimestamp (raw : String)
  | emptyDtAccessor
deriving DecidableEq

/-- One source row: an association of column names to cell values; a
column absent from the association models a pandas missing value. -/
abbrev Row : Type := List (String × String)

/-- Cell lookup in a row (`none` = missing value). -/
def getCell : Row → String → Option String
  | [], _ => none
  | (k, v) :: r, c => if k = c then some v else getCell r c

/-- An in-memory table as produced by `read_csv` / `read_excel`: header
column names plus rows. -/
structure DataFrame where
  columns : List String
  rows : List Row

/-- A discovered input file; `content = none` models a file that pandas
cannot open or parse (the `UnreadableFileError` case). -/
structure InputFile where
  name : String
  content : Option DataFrame

/-! ## Schema normalizer (`CANDS`, `pick_col`, `normalize_side`, ...) -/

/-- Accepted aliases for the order-id column (`CANDS["order_id"]`). -/
def CANDS_order_id : List String :=
  ["Order Number", "Order No", "OrderID", "Order Id"]

/-- Accepted aliases for the time column (`CANDS["time"]`). -/
def CANDS_time : List String :=
  ["Create Time", "Created Time", "Time", "Date"]

/-- Accepted aliases for the side column (`CANDS["side"]`). -/
def CANDS_side : List String :=
  ["Side", "Type", "Order Type"]

/-- Accepted aliases for the total-amount column (`CANDS["total"]`). -/
def CANDS_total : List String :=
  ["Total Price", "Total", "Total Amount", "Total(Fiat)", "Total Fiat"]

/-- Accepted aliases for the status column (`CANDS["status"]`). -/
def CANDS_status : List String :=
  ["Status", "Order Status"]

/-- Worker for `pick_col`: scan the remaining aliases, remembering the
full alias list for the error message. -/
def pickCore (cols orig : List String) : List String → Except PipelineError String
  | [] => .error (.missingColumn orig cols)
  | n :: ns => if cols.contains n then .ok n else pickCore cols orig ns

/-- `pick_col`: the first alias (case-sensitive exact match) present in
the header wins; if none is present, fail naming the alias list tried
and the header. -/
def pick_col (cols names : List String) : Except PipelineError String :=
  pickCore cols names names

/-- `normalize_side`: uppercase and strip, then classify. -/
def normalize_side (x : String) : String :=
  let s := pyUpper (pyStrip x)
  if pyContains s "BUY" then "BUY"
  else if pyContains s "SELL" then "SELL"
  else if pyStartsWith s "B" then "BUY"
  else if pyStartsWith s "S" then "SELL"
  else s

/-- `COMPLETED_VALUES`: the accepted completion indicators. -/
def COMPLETED_VALUES : List String :=
  ["completed", "success", "successful", "finished", "завершено"]

/-- `is_completed`: strip, lowercase, membership in the accepted set. -/
def is_completed (x : String) : Bool :=
  COMPLETED_VALUES.contains (pyLower (pyStrip x))

/-! ## Per-file parsing (`parse_one_file`) -/

/-- A row of the intermediate `out` frame (lines 66–72 of the source),
before the status filter and `dropna`.  The fields are kept `Option`
so that `dropna(subset=...)` is expressible, but after the source's
`astype(str)`/`str(x)` coercions only `total_fiat` can actually be
missing: a missing text cell has already become the string "nan". -/
structure PreRow where
  order_id : Option String
  created_at : Option String
  side : Option String
  total_fiat : Option ℚ
  status_ok : Bool

/-- pandas `astype(str)` (and `str(x)` inside `apply`) on one possibly
missing cell: a missing value (NaN) is rendered as the string "nan". -/
def cellToStr : Option String → String
  | some v => v
  | none => "nan"

/-- Amount normalization of one present cell: strip thousands commas,
then parse as a float; an unparseable value is a hard error
(`astype(float)` raising). -/
def normalizeAmount (v : String) : Except PipelineError ℚ :=
  match parseFloat ⟨v.data.filter (fun c => c ≠ ',')⟩ with
  | some q => .ok q
  | none => .error (.invalidAmount v)

/-- Build one `PreRow` from a source row, given the five resolved column
names.  As in the source, `astype(str)` turns a missing order-id or
time cell into the string "nan" and `normalize_side(str(x))` turns a
missing side cell into "NAN", so those fields are never missing; only
the amount column stays missing (a missing cell stringifies to "nan"
and `float("nan")` is back to NaN).  A missing status cell stringifies
to "nan", which is simply not a completion indicator. -/
def mkPreRow (oc tc sc totc stc : String) (r : Row) : Except PipelineError PreRow :=
  match getCell r totc with
  | none =>
    .ok { order_id := some (pyStrip (cellToStr (getCell r oc)))
          created_at := some (pyStrip (cellToStr (getCell r tc)))
          side := some (normalize_side (cellToStr (getCell r sc)))
          total_fiat := none
          status_ok := is_completed (cellToStr (getCell r stc)) }
  | some v =>
    match normalizeAmount v with
    | .error e => .error e
    | .ok q =>
      .ok { order_id := some (pyStrip (cellToStr (getCell r oc)))
            created_at := some (pyStrip (cellToStr (getCell r tc)))
            side := some (normalize_side (cellToStr (getCell r sc)))
            total_fiat := some q
            status_ok := is_completed (cellToStr (getCell r stc)) }

/-- Normalize every row of the table (column-wise in the source, so one
bad amount anywhere aborts the file). -/
def buildPreRows (oc tc sc totc stc : String) : List Row → Except PipelineError (List PreRow)
  | [] => .ok []
  | r :: rs =>
    match mkPreRow oc tc sc totc stc r with
    | .error e => .error e
    | .ok p =>
      match buildPreRows oc tc sc totc stc rs with
      | .error e => .error e
      | .ok ps => .ok (p :: ps)

/-- A row that survived `dropna`: all four required fields present. -/
structure CompleteRow where
  order_id : String
  created_at : String
  side : String
  total_fiat : ℚ
deriving DecidableEq

/-- The `dropna(subset=["order_id", "created_at", "side", "total_fiat"])`
step: keep exactly the rows whose four required fields are present. -/
def dropIncomplete : List PreRow → List CompleteRow
  | [] => []
  | r :: rs =>
    match r.order_id, r.created_at, r.side, r.total_fiat with
    | some o, some c, some s, some t => ⟨o, c, s, t⟩ :: dropIncomplete rs
    | _, _, _, _ => dropIncomplete rs

/-- A fully normalized trade of the working set. -/
structure NormalizedTrade where
  order_id : String
  created_at : String
  side : String
  total_fiat : ℚ
  dt : Timestamp
  month : String
deriving DecidableEq

/-- The four required fields of a trade, for relating the working set
back to the pre-`dropna` rows. -/
def toCompleteRow (t : NormalizedTrade) : CompleteRow :=
  ⟨t.order_id, t.created_at, t.side, t.total_fiat⟩

/-- Attach the parsed timestamp and derived month to every surviving
row (`out["dt"]`, `out["month"]`); an unparseable timestamp is a hard
error. -/
def attachDt : List CompleteRow → Except PipelineError (List NormalizedTrade)
  | [] => .ok []
  | r :: rs =>
    match parseTimestamp r.created_at with
    | none => .error (.invalidTimestamp r.created_at)
    | some dt =>
      match attachDt rs with
      | .error e => .error e
      | .ok ts =>
        .ok ({ order_id := r.order_id, created_at := r.created_at, side := r.side,
               total_fiat := r.total_fiat, dt := dt, month := monthOf dt } :: ts)

/-- Resolve the five canonical columns against the header. -/
def resolveCols (df : DataFrame) : Except PipelineError (String × String × String × String × String) :=
  match pick_col df.columns CANDS_order_id with
  | .error e => .error e
  | .ok oc =>
    match pick_col df.columns CANDS_time with
    | .error e => .error e
    | .ok tc =>
      match pick_col df.columns CANDS_side with
      | .error e => .error e
      | .ok sc =>
        match pick_col df.columns CANDS_total with
        | .error e => .error e
        | .ok totc =>
          match pick_col df.columns CANDS_status with
          | .error e => .error e
          | .ok stc => .ok (oc, tc, sc, totc, stc)

/-- The body of `parse_one_file` once the table is loaded: resolve
columns, normalize, filter completed, drop incomplete, attach
timestamps.  When no row survives the filter and `dropna`, the `.dt`
accessor at line 78 of the source raises `AttributeError` on the empty
non-datetimelike `dt` column, so an empty surviving set is a hard
error, not an empty working set. -/
def parseFrame (df : DataFrame) : Except PipelineError (List NormalizedTrade) :=
  match resolveCols df with
  | .error e => .error e
  | .ok (oc, tc, sc, totc, stc) =>
    match buildPreRows oc tc sc totc stc df.rows with
    | .error e => .error e
    | .ok pres =>
      let kept := dropIncomplete (pres.filter (fun r => r.status_ok))
      if kept.isEmpty then .error .emptyDtAccessor
      else attachDt kept

/-- `read_table`: load one file, failing on an unreadable file. -/
def read_table (f : InputFile) : Except PipelineError DataFrame :=
  match f.content with
  | some df => .ok df
  | none => .error (.unreadableFile f.name)

/-- `parse_one_file`: read the table and normalize it. -/
def parse_one_file (f : InputFile) : Except PipelineError (List NormalizedTrade) :=
  match read_table f with
  | .error e => .error e
  | .ok df => parseFrame df

/-- `pd.concat([parse_one_file(f) for f in files])`: files processed in
order, first error aborts. -/
def parseAll : List InputFile → Except PipelineError (List NormalizedTrade)
  | [] => .ok []
  | f :: fs =>
    match parse_one_file f with
    | .error e => .error e
    | .ok ts =>
      match parseAll fs with
      | .error e => .error e
      | .ok rest => .ok (ts ++ rest)

/-! ## Aggregator -/

/-- `IPN_RATE`: the fixed configured tax rate. -/
def IPN_RATE : ℚ := 1 / 10

/-- Sum of a list of amounts (`Series.sum`). -/
def sumAmounts (ts : List NormalizedTrade) : ℚ :=
  (ts.map (fun t => t.total_fiat)).sum

/-- Maximum of a list of month strings in the lexicographic order
(`Series.max` of the month column); `""` for the empty list, which the
caller never passes. -/
def monthsMax : List String → String
  | [] => ""
  | m :: ms => ms.foldl strMax m

/-- `current_month = trades["month"].max()`. -/
def currentMonth (trades : List NormalizedTrade) : String :=
  monthsMax (trades.map (fun t => t.month))

/-- `m = trades[trades["month"] == current_month]`. -/
def selectedRows (trades : List NormalizedTrade) : List NormalizedTrade :=
  trades.filter (fun t => t.month == currentMonth trades)

/-- The derived figures of the report (`MonthlySummary` of the spec). -/
structure MonthlySummary where
  current_month : String
  buy_total : ℚ
  sell_total : ℚ
  raw_diff : ℚ
  profit_base : ℚ
  unclosed_balance : ℚ
  estimated_tax : ℚ
  trade_count : Nat

/-- The aggregation step of `main` (lines 134–148 of the source):
select the maximal month, sum BUY and SELL amounts over it, derive
profit base, unclosed balance and estimated tax. -/
def aggregate (trades : List NormalizedTrade) : MonthlySummary :=
  let cm := currentMonth trades
  let m := selectedRows trades
  let buy_sum := sumAmounts (m.filter (fun t => t.side == "BUY"))
  let sell_sum := sumAmounts (m.filter (fun t => t.side == "SELL"))
  let raw_diff := sell_sum - buy_sum
  let profit_tax_base := max 0 raw_diff
  let unclosed := max 0 (-raw_diff)
  { current_month := cm
    buy_total := buy_sum
    sell_total := sell_sum
    raw_diff := raw_diff
    profit_base := profit_tax_base
    unclosed_balance := unclosed
    estimated_tax := profit_tax_base * IPN_RATE
    trade_count := m.length }

/-! ## CSV side-file -/

/-- One row of `docs/month_trades.csv`, in the source's column order
`["created_at", "side", "total_fiat", "order_id"]`. -/
structure CsvRow where
  created_at : String
  side : String
  total_fiat : ℚ
  order_id : String
deriving DecidableEq

/-- Project a trade onto the CSV columns. -/
def toCsvRow (t : NormalizedTrade) : CsvRow :=
  ⟨t.created_at, t.side, t.total_fiat, t.order_id⟩

/-- Insert a trade into a list sorted ascending by parsed timestamp. -/
def insertByDt (t : NormalizedTrade) : List NormalizedTrade → List NormalizedTrade
  | [] => [t]
  | u :: us => if t.dt.key ≤ u.dt.key then t :: u :: us else u :: insertByDt t us

/-- `m.sort_values("dt")`: sort ascending by parsed timestamp. -/
def sortByDt : List NormalizedTrade → List NormalizedTrade
  | [] => []
  | t :: ts => insertByDt t (sortByDt ts)

/-- The CSV side-file content: the selected month's trades sorted
ascending by parsed timestamp, projected onto the four columns. -/
def monthCsv (m : List NormalizedTrade) : List CsvRow :=
  (sortByDt m).map toCsvRow

/-! ## Report renderer -/

/-- Round-half-even of a rational, as Python's zero-decimals comma-grouped
float formatting does at the value level. -/
def roundHalfEven (q : ℚ) : ℤ :=
  let d : ℤ := (q.den : ℤ)
  let f := Int.fdiv q.num d
  let r := q.num - f * d
  if 2 * r < d then f
  else if 2 * r > d then f + 1
  else if f % 2 = 0 then f else f + 1

/-- Group the digits (given least significant first) in threes with a
space separator, least significant first. -/
def group3Rev : List Char → List Char
  | a :: b :: c :: d :: rest => a :: b :: c :: ' ' :: group3Rev (d :: rest)
  | l => l

/-- `money`: format with no decimals, thousands grouped, with the comma
group separator of the Python format replaced by a space. -/
def money (q : ℚ) : String :=
  match roundHalfEven q with
  | .ofNat n => ⟨(group3Rev (natChars (n + 1) n).reverse).reverse⟩
  | .negSucc n => ⟨'-' :: (group3Rev (natChars (n + 2) (n + 1)).reverse).reverse⟩

/-- Python `int(...)` on a rational: truncation toward zero. -/
def truncInt (q : ℚ) : ℤ :=
  q.num / (q.den : ℤ)

/-- Default page title of `write_html`. -/
def defaultTitle : String := "Binance P2P — учёт"

/-- Title of the populated report. -/
def reportTitle : String := "Binance P2P — учёт ИП (общий режим)"

/-- Document part of `write_html` before the title. -/
def htmlHeadPre : String :=
  "<!doctype html>\n<html lang=\"ru\">\n<head>\n  <meta charset=\"utf-8\"/>\n  <meta name=\"viewport\" content=\"width=device-width, initial-scale=1\"/>\n  <title>"

/-- Document part of `write_html` between the title and the body (the
doubled braces of the source f-string are literal braces in the CSS). -/
def htmlHeadPost : String :=
  "</title>\n  <style>\n    body\x7bfont-family:-apple-system,system-ui,Arial;margin:24px\x7d\n    .card\x7bborder:1px solid #ddd;border-radius:14px;padding:16px;margin:12px 0\x7d\n    .big\x7bfont-size:30px;font-weight:800\x7d\n    .muted\x7bcolor:#666\x7d\n    a\x7bword-break:break-all\x7d\n  </style>\n</head>\n<body>\n"

/-- Document part of `write_html` after the body. -/
def htmlTail : String :=
  "\n</body>\n</html>"

/-- `write_html`: wrap a body in the fixed document shell. -/
def htmlShell (body title : String) : String :=
  htmlHeadPre ++ title ++ htmlHeadPost ++ body ++ htmlTail

/-- Body of the "no data files" empty-state page. -/
def emptyBodyNoFiles : String :=
  "\n        <h2>Binance P2P — учёт (ИП)</h2>\n        <div class=\"card\">\n          <div class=\"big\">Нет данных</div>\n          <div class=\"muted\">Загрузи CSV или Excel из Binance P2P в папку <b>data/p2p/</b>.</div>\n        </div>\n        "

/-- Body of the "no completed trades" empty-state page. -/
def emptyBodyNoTrades : String :=
  "\n        <h2>Binance P2P — учёт (ИП)</h2>\n        <div class=\"card\">\n          <div class=\"big\">Нет завершённых сделок</div>\n          <div class=\"muted\">Проверь, что экспорт содержит сделки со статусом Completed/Завершено.</div>\n        </div>\n        "

/-- `file_list_html`: base names of the input files joined with line
breaks. -/
def fileListHtml (files : List InputFile) : String :=
  joinSep "<br>" (files.map (fun f => basename f.name))

/-- Constant part of the populated report body before the embedded
generation timestamp. -/
def reportBodyPre : String :=
  "\n    <h2>Binance P2P — учёт (ИП, общий режим)</h2>\n    <div class=\"muted\">Обновлено: "

/-- Part of the populated report body after the embedded generation
timestamp: every interpolation depends only on the input data. -/
def reportBodyPost (files : List InputFile) (s : MonthlySummary) : String :=
  "</div>\n\n    <div class=\"card\">\n      <div class=\"muted\">Период</div>\n      <div class=\"big\">" ++ s.current_month ++
  "</div>\n      <div class=\"muted\">Сделок: " ++ natToStr s.trade_count ++
  "</div>\n    </div>\n\n    <div class=\"card\">\n      <div class=\"muted\">BUY сумма / SELL сумма</div>\n      <div class=\"big\">" ++ money s.buy_total ++ " ₸ / " ++ money s.sell_total ++
  " ₸</div>\n      <div class=\"muted\">Разница (SELL−BUY): " ++ money s.raw_diff ++
  " ₸</div>\n    </div>\n\n    <div class=\"card\">\n      <div class=\"muted\">Прибыль (налоговая база)</div>\n      <div class=\"big\">" ++ money s.profit_base ++
  " ₸</div>\n      <div class=\"muted\">Если SELL ≤ BUY, прибыль = 0, а разница уходит в «Незакрытый остаток».</div>\n    </div>\n\n    <div class=\"card\">\n      <div class=\"muted\">Незакрытый остаток (оборот не закрыт)</div>\n      <div class=\"big\">" ++ money s.unclosed_balance ++
  " ₸</div>\n    </div>\n\n    <div class=\"card\">\n      <div class=\"muted\">ИПН к уплате (ориентир " ++ intToStr (truncInt (IPN_RATE * 100)) ++
  "% от прибыли)</div>\n      <div class=\"big\">" ++ money s.estimated_tax ++
  " ₸</div>\n    </div>\n\n    <div class=\"card\">\n      <div class=\"muted\">Сделки за месяц (CSV)</div>\n      <div><a href=\"./month_trades.csv\">Открыть month_trades.csv</a></div>\n    </div>\n\n    <div class=\"card\">\n      <div class=\"muted\">Файлы данных</div>\n      <div>" ++ fileListHtml files ++
  "</div>\n    </div>\n    "

/-- The populated report body: the generation timestamp is embedded
between two data-determined parts. -/
def reportBody (now : String) (files : List InputFile) (s : MonthlySummary) : String :=
  reportBodyPre ++ now ++ reportBodyPost files s

/-! ## Whole-run model -/

/-- One performed output-file write: the HTML report
(`docs/index.html`) or the CSV side-file (`docs/month_trades.csv`). -/
inductive FileWrite where
  | htmlFile (content : String)
  | csvFile (rows : List CsvRow)
deriving DecidableEq

/-- The tail of `main` after the trades are parsed: the "no completed
trades" page, or the CSV side-file followed by the populated report. -/
def runParsed (files : List InputFile) (now : String) (trades : List NormalizedTrade) :
    List FileWrite × Option PipelineError :=
  if trades.isEmpty then
    ([.htmlFile (htmlShell emptyBodyNoTrades defaultTitle)], none)
  else
    let s := aggregate trades
    let m := selectedRows trades
    ([.csvFile (monthCsv m),
      .htmlFile (htmlShell (reportBody now files s) reportTitle)], none)

/-- The whole `main` run over the discovered files, with `now` the
rendered `datetime.now()` string: returns the list of file writes
performed, and the fatal error if one aborted the run. -/
def run (files : List InputFile) (now : String) : List FileWrite × Option PipelineError :=
  if files.isEmpty then
    ([.htmlFile (htmlShell emptyBodyNoFiles defaultTitle)], none)
  else
    match parseAll files with
    | .error e => ([], some e)
    | .ok trades => runParsed files now trades

/-- The CSV writes among a run's writes. -/
def csvWrites (ws : List FileWrite) : List (List CsvRow) :=
  ws.filterMap (fun w => match w with | .csvFile rows => some rows | _ => none)

/-- The HTML writes among a run's writes. -/
def htmlWrites (ws : List FileWrite) : List String :=
  ws.filterMap (fun w => match w with | .htmlFile c => some c | _ => none)

/-! ## Sample data used by the concrete instantiations -/

/-- A completed BUY trade of 1000 in month 2024-05. -/
def sampleBuy : NormalizedTrade :=
  { order_id := "111", created_at := "2024-05-01 10:00:00", side := "BUY",
    total_fiat := 1000, dt := ⟨2024, 5, 1, 10, 0, 0⟩, month := "2024-05" }

/-- A completed SELL trade of 1500 in month 2024-05. -/
def sampleSell : NormalizedTrade :=
  { order_id := "222", created_at := "2024-05-02 11:00:00", side := "SELL",
    total_fiat := 1500, dt := ⟨2024, 5, 2, 11, 0, 0⟩, month := "2024-05" }

/-- A discovered file whose single row is a pending (not completed)
trade. -/
def pendingFile : InputFile :=
  { name := "data/p2p/pending.csv",
    content := some
      { columns := ["Order Number", "Create Time", "Side", "Total Price", "Status"],
        rows := [[("Order Number", "333"), ("Create Time", "2024-05-03 09:00:00"),
                  ("Side", "BUY"), ("Total Price", "100"), ("Status", "pending")]] } }

/-- A source table with one complete completed row, one completed row
whose order-id cell is missing, and one pending row. -/
def sampleFrame : DataFrame :=
  { columns := ["Order Number", "Create Time", "Side", "Total Price", "Status"],
    rows :=
      [[("Order Number", "111"), ("Create Time", "2024-05-01 10:00:00"), ("Side", "Buy"),
        ("Total Price", "1000"), ("Status", "Completed")],
       [("Create Time", "2024-05-02 12:00:00"), ("Side", "Sell"),
        ("Total Price", "2000"), ("Status", "Completed")],
       [("Order Number", "333"), ("Create Time", "2024-05-03 09:00:00"), ("Side", "Buy"),
        ("Total Price", "50"), ("Status", "pending")]] }

/-- The working-set trade parsed from the first (complete, completed)
row of `sampleFrame`. -/
def sampleParsed : NormalizedTrade :=
  { order_id := "111", created_at := "2024-05-01 10:00:00", side := "BUY",
    total_fiat := ratOfParts 1 1000 0 0, dt := ⟨2024, 5, 1, 10, 0, 0⟩, month := "2024-05" }

/-- The working-set trade parsed from the second row of `sampleFrame`:
its missing order-id cell has been stringified to "nan" by
`astype(str)`, so the row passes `dropna` and is kept. -/
def nanOrderTrade : NormalizedTrade :=
  { order_id := "nan", created_at := "2024-05-02 12:00:00", side := "SELL",
    total_fiat := ratOfParts 1 2000 0 0, dt := ⟨2024, 5, 2, 12, 0, 0⟩, month := "2024-05" }

/-- A source table whose single completed row has no time cell: the
cell stringifies to "nan", which passes `dropna` and then makes the
timestamp parse raise. -/
def missingTimeFrame : DataFrame :=
  { columns := ["Order Number", "Create Time", "Side", "Total Price", "Status"],
    rows := [[("Order Number", "444"), ("Side", "BUY"),
              ("Total Price", "10"), ("Status", "Completed")]] }

/-- A discovered file whose header lacks every status alias. -/
def badFile : InputFile :=
  { name := "data/p2p/bad.csv",
    content := some
      { columns := ["Order Number", "Create Time", "Side", "Total Price"],
        rows := [] } }

/-- A discovered file whose completed trades span two months
(2024-04 and 2024-05), with the May rows out of chronological order. -/
def twoMonthFile : InputFile :=
  { name := "data/p2p/two.csv",
    content := some
      { columns := ["Order Number", "Create Time", "Side", "Total Price", "Status"],
        rows :=
          [[("Order Number", "101"), ("Create Time", "2024-04-30 23:00:00"), ("Side", "SELL"),
            ("Total Price", "700"), ("Status", "Completed")],
           [("Order Number", "102"), ("Create Time", "2024-05-02 11:00:00"), ("Side", "SELL"),
            ("Total Price", "1500"), ("Status", "Completed")],
           [("Order Number", "103"), ("Create Time", "2024-05-01 10:00:00"), ("Side", "BUY"),
            ("Total Price", "1000"), ("Status", "Completed")]] } }

/-- The working set parsed from `twoMonthFile`. -/
def twoMonthTrades : List NormalizedTrade :=
  [{ order_id := "101", created_at := "2024-04-30 23:00:00", side := "SELL",
     total_fiat := ratOfParts 1 700 0 0, dt := ⟨2024, 4, 30, 23, 0, 0⟩, month := "2024-04" },
   { order_id := "102", created_at := "2024-05-02 11:00:00", side := "SELL",
     total_fiat := ratOfParts 1 1500 0 0, dt := ⟨2024, 5, 2, 11, 0, 0⟩, month := "2024-05" },
   { order_id := "103", created_at := "2024-05-01 10:00:00", side := "BUY",
     total_fiat := ratOfParts 1 1000 0 0, dt := ⟨2024, 5, 1, 10, 0, 0⟩, month := "2024-05" }]

/-- A completed trade whose side value normalizes to the raw uppercased
pass-through "TRANSFER". -/
def oddTrade : NormalizedTrade :=
  { order_id := "999", created_at := "2024-05-04 09:00:00", side := normalize_side "Transfer",
    total_fiat := 250, dt := ⟨2024, 5, 4, 9, 0, 0⟩, month := "2024-05" }

/-! ## Properties of the lexicographic string order -/

theorem charsLe_refl : ∀ l : List Char, charsLe l l = true
  | [] => rfl
  | a :: as => by
    simp only [charsLe, lt_irrefl, if_false]
    exact charsLe_refl as

theorem charsLe_total : ∀ a b : List Char, charsLe a b = true ∨ charsLe b a = true
  | [], _ => Or.inl rfl
  | _ :: _, [] => Or.inr rfl
  | a :: as, b :: bs => by
    rcases lt_trichotomy a b with h | h | h
    · left
      simp [charsLe, h]
    · subst h
      simp only [charsLe, lt_irrefl, if_false]
      exact charsLe_total as bs
    · right
      simp [charsLe, h]

theorem charsLe_trans :
    ∀ {a b c : List Char}, charsLe a b = true → charsLe b c = true → charsLe a c = true
  | [], _, _, _, _ => rfl
  | _ :: _, [], _, h, _ => by simp [charsLe] at h
  | _ :: _, _ :: _, [], _, h => by simp [charsLe] at h
  | a :: as, b :: bs, c :: cs, h1, h2 => by
    simp only [charsLe] at h1 h2 ⊢
    rcases lt_trichotomy a b with hab | hab | hab
    · rcases lt_trichotomy b c with hbc | hbc | hbc
      · simp [lt_trans hab hbc]
      · subst hbc
        simp [hab]
      · rw [if_neg (lt_asymm hbc), if_pos hbc] at h2
        exact absurd h2 (by simp)
    · subst hab
      rw [if_neg (lt_irrefl a), if_neg (lt_irrefl a)] at h1
      rcases lt_trichotomy a c with hac | hac | hac
      · simp [hac]
      · subst hac
        rw [if_neg (lt_irrefl a), if_neg (lt_irrefl a)] at h2
        simp only [lt_irrefl, if_false]
        exact charsLe_trans h1 h2
      · rw [if_neg (lt_asymm hac), if_pos hac] at h2
        exact absurd h2 (by simp)
    · rw [if_neg (lt_asymm hab), if_pos hab] at h1
      exact absurd h1 (by simp)

theorem strLeB_refl (s : String) : strLeB s s = true :=
  charsLe_refl s.data

theorem strLeB_total (a b : String) : strLeB a b = true ∨ strLeB b a = true :=
  charsLe_total a.data b.data

theorem strLeB_trans {a b c : String} (h1 : strLeB a b = true) (h2 : strLeB b c = true) :
    strLeB a c = true :=
  charsLe_trans h1 h2

theorem le_strMax_left (a b : String) : strLeB a (strMax a b) = true := by
  unfold strMax
  split
  · assumption
  · exact strLeB_refl a

theorem le_strMax_right (a b : String) : strLeB b (strMax a b) = true := by
  unfold strMax
  split
  · exact strLeB_refl b
  · next h =>
    rcases strLeB_total a b with h' | h'
    · exact absurd h' h
    · exact h'

theorem strMax_cases (a b : String) : strMax a b = a ∨ strMax a b = b := by
  unfold strMax
  split
  · exact Or.inr rfl
  · exact Or.inl rfl

theorem foldl_strMax_init (a : String) (ms : List String) :
    strLeB a (ms.foldl strMax a) = true := by
  induction ms generalizing a with
  | nil => exact strLeB_refl a
  | cons m ms ih =>
    exact strLeB_trans (le_strMax_left a m) (ih (strMax a m))

theorem foldl_strMax_mem {x : String} :
    ∀ (ms : List String) (a : String), x ∈ ms → strLeB x (ms.foldl strMax a) = true
  | [], _, hx => by cases hx
  | m :: ms, a, hx => by
    rcases List.mem_cons.mp hx with h | h
    · subst h
      exact strLeB_trans (le_strMax_right a x) (foldl_strMax_init (strMax a x) ms)
    · exact foldl_strMax_mem ms (strMax a m) h

theorem foldl_strMax_choice (a : String) (ms : List String) :
    ms.foldl strMax a = a ∨ ms.foldl strMax a ∈ ms := by
  induction ms generalizing a with
  | nil => exact Or.inl rfl
  | cons m ms ih =>
    rcases ih (strMax a m) with h | h
    · rw [List.foldl_cons, h]
      rcases strMax_cases a m with h' | h'
      · exact Or.inl h'
      · rw [h']
        exact Or.inr (List.mem_cons_self m ms)
    · exact Or.inr (List.mem_cons_of_mem m h)

theorem monthsMax_mem {ms : List String} (h : ms ≠ []) : monthsMax ms ∈ ms := by
  match ms with
  | [] => exact absurd rfl h
  | m :: ms =>
    simp only [monthsMax]
    rcases foldl_strMax_choice m ms with h' | h'
    · rw [h']
      exact List.mem_cons_self m ms
    · exact List.mem_cons_of_mem m h'

theorem monthsMax_ge {x : String} {ms : List String} (hx : x ∈ ms) :
    strLeB x (monthsMax ms) = true := by
  match ms with
  | [] => cases hx
  | m :: ms =>
    simp only [monthsMax]
    rcases List.mem_cons.mp hx with h | h
    · subst h
      exact foldl_strMax_init x ms
    · exact foldl_strMax_mem ms m h

/-! ## Properties of the timestamp sort -/

theorem insertByDt_perm (t : NormalizedTrade) :
    ∀ l : List NormalizedTrade, (insertByDt t l).Perm (t :: l)
  | [] => List.Perm.refl _
  | u :: us => by
    simp only [insertByDt]
    split
    · exact List.Perm.refl _
    · exact ((insertByDt_perm t us).cons u).trans (List.Perm.swap t u us)

theorem sortByDt_perm : ∀ l : List NormalizedTrade, (sortByDt l).Perm l
  | [] => List.Perm.refl _
  | t :: ts => (insertByDt_perm t (sortByDt ts)).trans ((sortByDt_perm ts).cons t)

theorem insertByDt_sorted {t : NormalizedTrade} :
    ∀ {l : List NormalizedTrade},
      l.Pairwise (fun a b => a.dt.key ≤ b.dt.key) →
      (insertByDt t l).Pairwise (fun a b => a.dt.key ≤ b.dt.key)
  | [], _ => List.pairwise_singleton _ t
  | u :: us, h => by
    simp only [insertByDt]
    rcases List.pairwise_cons.mp h with ⟨hu, hus⟩
    split
    · next hle =>
      exact List.pairwise_cons.mpr
        ⟨fun x hx => by
          rcases List.mem_cons.mp hx with hx | hx
          · exact hx ▸ hle
          · exact Nat.le_trans hle (hu x hx), h⟩
    · next hgt =>
      have hut : u.dt.key ≤ t.dt.key := Nat.le_of_not_le hgt
      refine List.pairwise_cons.mpr ⟨fun x hx => ?_, insertByDt_sorted hus⟩
      have hx2 : x ∈ t :: us := (insertByDt_perm t us).mem_iff.mp hx
      rcases List.mem_cons.mp hx2 with hx3 | hx3
      · exact hx3 ▸ hut
      · exact hu x hx3

theorem sortByDt_sorted :
    ∀ l : List NormalizedTrade, (sortByDt l).Pairwise (fun a b => a.dt.key ≤ b.dt.key)
  | [] => List.Pairwise.nil
  | t :: ts => insertByDt_sorted (sortByDt_sorted ts)

theorem filter_erase_of_false {p : NormalizedTrade → Bool} {a : NormalizedTrade}
    (hpa : p a = false) :
    ∀ l : List NormalizedTrade, (l.erase a).filter p = l.filter p
  | [] => rfl
  | x :: xs => by
    by_cases hxa : x = a
    · subst hxa
      rw [List.erase_cons_head, List.filter_cons_of_neg (by simp [hpa])]
    · rw [List.erase_cons_tail (by simp [hxa])]
      by_cases hpx : p x = true
      · rw [List.filter_cons_of_pos hpx, List.filter_cons_of_pos hpx,
          filter_erase_of_false hpa xs]
      · rw [List.filter_cons_of_neg (by simpa using hpx),
          List.filter_cons_of_neg (by simpa using hpx), filter_erase_of_false hpa xs]

/-! ## Claim C1: month selection and per-month totals -/

/-- C1: for a non-empty trade set the aggregator picks `current_month`
as the lexicographic maximum of the month strings over all trades, and,
over the rows of that month only, `buy_total` sums `total_fiat` where
`side == "BUY"`, `sell_total` where `side == "SELL"`,
`raw_diff = sell_total - buy_total`, and `trade_count` counts all rows
of the selected subset regardless of side. -/
theorem aggregate_current_month_max (trades : List NormalizedTrade) (h : trades ≠ []) :
    ((aggregate trades).current_month ∈ trades.map (fun t => t.month)
      ∧ ∀ t ∈ trades, strLeB t.month (aggregate trades).current_month = true)
    ∧ (aggregate trades).buy_total
        = sumAmounts ((selectedRows trades).filter (fun t => t.side == "BUY"))
    ∧ (aggregate trades).sell_total
        = sumAmounts ((selectedRows trades).filter (fun t => t.side == "SELL"))
    ∧ (aggregate trades).raw_diff = (aggregate trades).sell_total - (aggregate trades).buy_total
    ∧ (aggregate trades).trade_count = (selectedRows trades).length
    ∧ selectedRows trades = trades.filter (fun t => t.month == (aggregate trades).current_month) := by
  refine ⟨⟨?_, ?_⟩, rfl, rfl, rfl, rfl, rfl⟩
  · show monthsMax (trades.map fun t => t.month) ∈ trades.map fun t => t.month
    refine monthsMax_mem fun hm => h ?_
    exact List.map_eq_nil_iff.mp hm
  · intro t ht
    show strLeB t.month (monthsMax (trades.map fun t => t.month)) = true
    exact monthsMax_ge (List.mem_map_of_mem _ ht)

/-- Witness for C1 at the two-trade scenario of the spec. -/
theorem aggregate_current_month_max_concrete :
    ((aggregate [sampleBuy, sampleSell]).current_month
        ∈ [sampleBuy, sampleSell].map (fun t => t.month)
      ∧ ∀ t ∈ [sampleBuy, sampleSell],
          strLeB t.month (aggregate [sampleBuy, sampleSell]).current_month = true)
    ∧ (aggregate [sampleBuy, sampleSell]).buy_total
        = sumAmounts ((selectedRows [sampleBuy, sampleSell]).filter (fun t => t.side == "BUY"))
    ∧ (aggregate [sampleBuy, sampleSell]).sell_total
        = sumAmounts ((selectedRows [sampleBuy, sampleSell]).filter (fun t => t.side == "SELL"))
    ∧ (aggregate [sampleBuy, sampleSell]).raw_diff
        = (aggregate [sampleBuy, sampleSell]).sell_total
            - (aggregate [sampleBuy, sampleSell]).buy_total
    ∧ (aggregate [sampleBuy, sampleSell]).trade_count
        = (selectedRows [sampleBuy, sampleSell]).length
    ∧ selectedRows [sampleBuy, sampleSell]
        = [sampleBuy, sampleSell].filter
            (fun t => t.month == (aggregate [sampleBuy, sampleSell]).current_month) :=
  aggregate_current_month_max [sampleBuy, sampleSell] (List.cons_ne_nil _ _)

/-! ## Claim C4: sign structure of profit base and unclosed balance -/

/-- Sign structure of `max 0 d` and `max 0 (-d)` over the rationals. -/
theorem max_zero_exclusive (d : ℚ) (hd : d ≠ 0) :
    (max 0 d = 0 ∧ max 0 (-d) ≠ 0) ∨ (max 0 d ≠ 0 ∧ max 0 (-d) = 0) := by
  rcases lt_or_gt_of_ne hd with hlt | hgt
  · left
    constructor
    · exact max_eq_left (le_of_lt hlt)
    · rw [max_eq_right (le_of_lt (neg_pos.mpr hlt))]
      exact ne_of_gt (neg_pos.mpr hlt)
  · right
    constructor
    · rw [max_eq_right (le_of_lt hgt)]
      exact ne_of_gt hgt
    · exact max_eq_left (neg_nonpos.mpr (le_of_lt hgt))

/-- C4: for a non-empty trade set, `profit_base = max 0 raw_diff ≥ 0`
and `unclosed_balance = max 0 (-raw_diff) ≥ 0`; when `raw_diff ≠ 0`
exactly one of the two is zero, and both are zero when
`raw_diff = 0`. -/
theorem profit_unclosed_sign_structure (trades : List NormalizedTrade) (h : trades ≠ []) :
    (aggregate trades).profit_base = max 0 (aggregate trades).raw_diff
    ∧ (aggregate trades).unclosed_balance = max 0 (-(aggregate trades).raw_diff)
    ∧ 0 ≤ (aggregate trades).profit_base
    ∧ 0 ≤ (aggregate trades).unclosed_balance
    ∧ ((aggregate trades).raw_diff ≠ 0 →
        ((aggregate trades).profit_base = 0 ∧ (aggregate trades).unclosed_balance ≠ 0)
        ∨ ((aggregate trades).profit_base ≠ 0 ∧ (aggregate trades).unclosed_balance = 0))
    ∧ ((aggregate trades).raw_diff = 0 →
        (aggregate trades).profit_base = 0 ∧ (aggregate trades).unclosed_balance = 0) := by
  refine ⟨rfl, rfl, le_max_left 0 _, le_max_left 0 _, ?_, ?_⟩
  · intro hd
    exact max_zero_exclusive _ hd
  · intro hd
    constructor
    · show max 0 (aggregate trades).raw_diff = 0
      rw [hd]
      exact max_self 0
    · show max 0 (-(aggregate trades).raw_diff) = 0
      rw [hd, neg_zero]
      exact max_self 0

/-- Witness for C4 at the two-trade scenario. -/
theorem profit_unclosed_sign_structure_concrete :
    (aggregate [sampleBuy, sampleSell]).profit_base
        = max 0 (aggregate [sampleBuy, sampleSell]).raw_diff
    ∧ (aggregate [sampleBuy, sampleSell]).unclosed_balance
        = max 0 (-(aggregate [sampleBuy, sampleSell]).raw_diff)
    ∧ 0 ≤ (aggregate [sampleBuy, sampleSell]).profit_base
    ∧ 0 ≤ (aggregate [sampleBuy, sampleSell]).unclosed_balance
    ∧ ((aggregate [sampleBuy, sampleSell]).raw_diff ≠ 0 →
        ((aggregate [sampleBuy, sampleSell]).profit_base = 0
            ∧ (aggregate [sampleBuy, sampleSell]).unclosed_balance ≠ 0)
        ∨ ((aggregate [sampleBuy, sampleSell]).profit_base ≠ 0
            ∧ (aggregate [sampleBuy, sampleSell]).unclosed_balance = 0))
    ∧ ((aggregate [sampleBuy, sampleSell]).raw_diff = 0 →
        (aggregate [sampleBuy, sampleSell]).profit_base = 0
            ∧ (aggregate [sampleBuy, sampleSell]).unclosed_balance = 0) :=
  profit_unclosed_sign_structure [sampleBuy, sampleSell] (List.cons_ne_nil _ _)

/-! ## Claim C5: estimated tax -/

/-- C5: for a non-empty trade set, the estimated tax is exactly the
profit base times the fixed configured rate, which is 0.10. -/
theorem estimated_tax_exact (trades : List NormalizedTrade) (h : trades ≠ []) :
    (aggregate trades).estimated_tax = (aggregate trades).profit_base * IPN_RATE
    ∧ IPN_RATE = 1 / 10 :=
  ⟨rfl, rfl⟩

/-- Witness for C5 at the two-trade scenario. -/
theorem estimated_tax_exact_concrete :
    (aggregate [sampleBuy, sampleSell]).estimated_tax
        = (aggregate [sampleBuy, sampleSell]).profit_base * IPN_RATE
    ∧ IPN_RATE = 1 / 10 :=
  estimated_tax_exact [sampleBuy, sampleSell] (List.cons_ne_nil _ _)

/-! ## Claim C2: empty states (code-bug evidence) -/

/-- C2 (code-bug evidence): with no discovered files the run does
render the empty-state page without error, but with a file present
whose rows all fail the completed-status filter, the run aborts with
the `.dt`-accessor failure (the `AttributeError` of line 78 of the
source on the empty non-datetimelike `dt` column) and writes nothing:
the "no completed trades" page of the claim is never rendered. -/
theorem empty_filter_aborts_not_renders :
    run [] "2024-06-01 00:00:00" = ([.htmlFile (htmlShell emptyBodyNoFiles defaultTitle)], none)
    ∧ run [pendingFile] "2024-06-01 00:00:00" = ([], some .emptyDtAccessor) :=
  ⟨rfl, rfl⟩

/-! ## Claim C3: missing required cells (code-bug evidence) -/

/-- C3 (code-bug evidence): a completed row whose order-id cell is
missing is NOT silently excluded: `astype(str)` turns the missing
value into the string "nan", the row passes `dropna`, and the working
set keeps a trade with `order_id = "nan"`; and a completed row whose
time cell is missing aborts the whole run at the timestamp parse of
"nan" instead of being dropped. -/
theorem missing_required_cells_kept_or_abort :
    parseFrame sampleFrame = .ok [sampleParsed, nanOrderTrade]
    ∧ nanOrderTrade.order_id = "nan"
    ∧ parseFrame missingTimeFrame = .error (.invalidTimestamp "nan") :=
  ⟨rfl, rfl, rfl⟩

/-! ## Claim C6: column resolution -/

theorem pickCore_ok_spec :
    ∀ {cols orig names : List String} {n : String},
      pickCore cols orig names = .ok n →
      ∃ pre post, names = pre ++ n :: post ∧ cols.contains n = true
        ∧ ∀ x ∈ pre, cols.contains x = false
  | _, _, [], _, h => by simp [pickCore] at h
  | cols, orig, m :: ms, n, h => by
    simp only [pickCore] at h
    split at h
    · next hm =>
      cases h
      exact ⟨[], ms, rfl, hm, by simp⟩
    · next hm =>
      rcases pickCore_ok_spec h with ⟨pre, post, heq, hn, hpre⟩
      refine ⟨m :: pre, post, by rw [heq]; rfl, hn, ?_⟩
      intro x hx
      rcases List.mem_cons.mp hx with hx | hx
      · subst hx
        simpa using hm
      · exact hpre x hx

theorem pickCore_error_iff :
    ∀ (cols orig names : List String) (e : PipelineError),
      pickCore cols orig names = .error e
        ↔ (∀ n ∈ names, cols.contains n = false) ∧ e = .missingColumn orig cols
  | cols, orig, [], e => by
    constructor
    · intro h
      cases h
      exact ⟨by simp, rfl⟩
    · rintro ⟨-, he⟩
      rw [he]
      rfl
  | cols, orig, m :: ms, e => by
    simp only [pickCore]
    split
    · next hm =>
      constructor
      · intro h
        cases h
      · rintro ⟨hall, -⟩
        rw [hall m (List.mem_cons_self m ms)] at hm
        cases hm
    · next hm =>
      rw [pickCore_error_iff cols orig ms e]
      constructor
      · rintro ⟨hall, he⟩
        refine ⟨fun n hn => ?_, he⟩
        rcases List.mem_cons.mp hn with h | h
        · subst h
          simpa using hm
        · exact hall n h
      · rintro ⟨hall, he⟩
        exact ⟨fun n hn => hall n (List.mem_cons_of_mem m hn), he⟩

/-- C6: `pick_col` resolves a canonical field to the first alias of its
prioritized list present (case-sensitive, exact) in the header; it
fails if and only if no alias is present, and the failure names the
alias list tried (and the header). -/
theorem pick_col_spec (cols names : List String) :
    ((∃ n, pick_col cols names = .ok n) ∨ (∃ e, pick_col cols names = .error e))
    ∧ (∀ n, pick_col cols names = .ok n →
        ∃ pre post, names = pre ++ n :: post ∧ cols.contains n = true
          ∧ ∀ x ∈ pre, cols.contains x = false)
    ∧ ((∃ e, pick_col cols names = .error e) ↔ ∀ n ∈ names, cols.contains n = false)
    ∧ (∀ e, pick_col cols names = .error e → e = .missingColumn names cols) := by
  refine ⟨?_, ?_, ?_, ?_⟩
  · cases h : pick_col cols names with
    | error e => exact Or.inr ⟨e, rfl⟩
    | ok n => exact Or.inl ⟨n, rfl⟩
  · intro n h
    exact pickCore_ok_spec h
  · constructor
    · rintro ⟨e, he⟩
      exact ((pickCore_error_iff cols names names e).mp he).1
    · intro hall
      exact ⟨.missingColumn names cols,
        (pickCore_error_iff cols names names _).mpr ⟨hall, rfl⟩⟩
  · intro e he
    exact ((pickCore_error_iff cols names names e).mp he).2

/-- Witness for C6: on a header containing only "Order Type", the side
field resolves to the third alias with the first two absent; on a
header with no status alias, resolution fails. -/
theorem pick_col_spec_concrete :
    (∃ pre post, CANDS_side = pre ++ "Order Type" :: post
      ∧ (["Qty", "Order Type"] : List String).contains "Order Type" = true
      ∧ ∀ x ∈ pre, (["Qty", "Order Type"] : List String).contains x = false)
    ∧ (∀ n ∈ CANDS_status, (["Qty", "Order Type"] : List String).contains n = false) :=
  ⟨(pick_col_spec ["Qty", "Order Type"] CANDS_side).2.1 "Order Type" rfl,
   (pick_col_spec ["Qty", "Order Type"] CANDS_status).2.2.1.mp
     ⟨.missingColumn CANDS_status ["Qty", "Order Type"], rfl⟩⟩

/-! ## Claim C7: fatal errors abort before any output -/

/-- C7: whenever a run reports a hard error, no output file was written
at all. -/
theorem fatal_error_no_writes (files : List InputFile) (now : String) (e : PipelineError)
    (he : (run files now).2 = some e) : (run files now).1 = [] := by
  have hrp : ∀ (fs : List InputFile) (n : String) (ts : List NormalizedTrade),
      (runParsed fs n ts).2 = none := by
    intro fs n ts
    unfold runParsed
    split
    · rfl
    · rfl
  by_cases hf : files.isEmpty = true
  · rw [run, if_pos hf] at he
    exact Option.noConfusion he
  · rw [run, if_neg hf] at he ⊢
    revert he
    cases hp : parseAll files with
    | error e2 =>
      intro he
      rfl
    | ok trades =>
      intro he
      rw [hrp] at he
      exact Option.noConfusion he

/-- Witness for C7: a run over a file with no status column errors with
the missing-column failure and performs no write. -/
theorem fatal_error_no_writes_concrete :
    (run [badFile] "2024-06-01 00:00:00").2
        = some (.missingColumn CANDS_status ["Order Number", "Create Time", "Side", "Total Price"])
    ∧ (run [badFile] "2024-06-01 00:00:00").1 = [] :=
  ⟨rfl, fatal_error_no_writes [badFile] "2024-06-01 00:00:00" _ rfl⟩

/-! ## Claim C8: the CSV side-file -/

/-- C8: in the populated state the CSV side-file holds exactly the
selected (lexicographically maximal) month's trades, projected onto the
columns (timestamp-string, side, amount, order id) and sorted ascending
by parsed timestamp. -/
theorem csv_exactly_selected_month (files : List InputFile) (now : String)
    (trades : List NormalizedTrade)
    (hp : parseAll files = .ok trades) (hne : trades ≠ []) :
    run files now
      = ([.csvFile (monthCsv (selectedRows trades)),
          .htmlFile (htmlShell (reportBody now files (aggregate trades)) reportTitle)], none)
    ∧ monthCsv (selectedRows trades) = (sortByDt (selectedRows trades)).map toCsvRow
    ∧ (monthCsv (selectedRows trades)).Perm ((selectedRows trades).map toCsvRow)
    ∧ (sortByDt (selectedRows trades)).Pairwise (fun a b => a.dt.key ≤ b.dt.key)
    ∧ (∀ t ∈ selectedRows trades, t.month = currentMonth trades)
    ∧ (∀ t ∈ trades, t.month = currentMonth trades → t ∈ selectedRows trades) := by
  have hfne : files ≠ [] := by
    intro hf
    subst hf
    have h2 : Except.ok ([] : List NormalizedTrade) = Except.ok trades := hp
    injection h2 with h2
    exact hne h2.symm
  refine ⟨?_, rfl, ?_, sortByDt_sorted _, ?_, ?_⟩
  · rw [run, if_neg (fun hcond => hfne (List.isEmpty_iff.mp hcond)), hp]
    show runParsed files now trades = _
    rw [runParsed, if_neg (fun hcond => hne (List.isEmpty_iff.mp hcond))]
  · exact ((sortByDt_perm (selectedRows trades)).map toCsvRow)
  · intro t ht
    have := (List.mem_filter.mp ht).2
    simpa using this
  · intro t ht hm
    exact List.mem_filter.mpr ⟨ht, by simpa using hm⟩

/-- Witness for C8 on the two-month scenario. -/
theorem csv_exactly_selected_month_concrete :
    run [twoMonthFile] "2024-06-01 00:00:00"
      = ([.csvFile (monthCsv (selectedRows twoMonthTrades)),
          .htmlFile (htmlShell (reportBody "2024-06-01 00:00:00" [twoMonthFile]
            (aggregate twoMonthTrades)) reportTitle)], none)
    ∧ monthCsv (selectedRows twoMonthTrades)
        = (sortByDt (selectedRows twoMonthTrades)).map toCsvRow
    ∧ (monthCsv (selectedRows twoMonthTrades)).Perm
        ((selectedRows twoMonthTrades).map toCsvRow)
    ∧ (sortByDt (selectedRows twoMonthTrades)).Pairwise (fun a b => a.dt.key ≤ b.dt.key)
    ∧ (∀ t ∈ selectedRows twoMonthTrades, t.month = currentMonth twoMonthTrades)
    ∧ (∀ t ∈ twoMonthTrades, t.month = currentMonth twoMonthTrades
        → t ∈ selectedRows twoMonthTrades) :=
  csv_exactly_selected_month [twoMonthFile] "2024-06-01 00:00:00" twoMonthTrades rfl
    (List.cons_ne_nil _ _)

/-! ## Claim C9: determinism up to the generation timestamp -/

theorem csvWrites_pair (c : List CsvRow) (h : String) :
    csvWrites [FileWrite.csvFile c, FileWrite.htmlFile h] = [c] := rfl

theorem htmlWrites_pair (c : List CsvRow) (h : String) :
    htmlWrites [FileWrite.csvFile c, FileWrite.htmlFile h] = [h] := rfl

theorem htmlShell_report_split (now : String) (files : List InputFile) (s : MonthlySummary) :
    htmlShell (reportBody now files s) reportTitle
      = (htmlHeadPre ++ reportTitle ++ htmlHeadPost ++ reportBodyPre) ++ now
          ++ (reportBodyPost files s ++ htmlTail) := by
  simp [htmlShell, reportBody, String.append_assoc]

/-- C9: two runs over the same input files produce the same error
state, identical CSV writes, and HTML writes that are identical except
for the embedded generation timestamp. -/
theorem rerun_identical_except_timestamp (files : List InputFile) (now now2 : String) :
    (run files now).2 = (run files now2).2
    ∧ csvWrites (run files now).1 = csvWrites (run files now2).1
    ∧ (htmlWrites (run files now).1 = htmlWrites (run files now2).1
       ∨ ∃ pre post, htmlWrites (run files now).1 = [pre ++ now ++ post]
           ∧ htmlWrites (run files now2).1 = [pre ++ now2 ++ post]) := by
  by_cases hf : files.isEmpty = true
  · have hr : ∀ n, run files n = ([.htmlFile (htmlShell emptyBodyNoFiles defaultTitle)], none) :=
      fun n => by rw [run, if_pos hf]
    rw [hr now, hr now2]
    exact ⟨rfl, rfl, Or.inl rfl⟩
  · cases hp : parseAll files with
    | error e =>
      have hr : ∀ n, run files n = ([], some e) := fun n => by rw [run, if_neg hf, hp]
      rw [hr now, hr now2]
      exact ⟨rfl, rfl, Or.inl rfl⟩
    | ok trades =>
      have hr : ∀ n, run files n = runParsed files n trades :=
        fun n => by rw [run, if_neg hf, hp]
      by_cases ht : trades.isEmpty = true
      · have hrp : ∀ n, runParsed files n trades
            = ([.htmlFile (htmlShell emptyBodyNoTrades defaultTitle)], none) :=
          fun n => by rw [runParsed, if_pos ht]
        rw [hr now, hr now2, hrp now, hrp now2]
        exact ⟨rfl, rfl, Or.inl rfl⟩
      · have hrp : ∀ n, runParsed files n trades
            = ([.csvFile (monthCsv (selectedRows trades)),
                .htmlFile (htmlShell (reportBody n files (aggregate trades)) reportTitle)],
               none) :=
          fun n => by rw [runParsed, if_neg ht]
        rw [hr now, hr now2, hrp now, hrp now2]
        refine ⟨rfl, rfl, Or.inr
          ⟨htmlHeadPre ++ reportTitle ++ htmlHeadPost ++ reportBodyPre,
           reportBodyPost files (aggregate trades) ++ htmlTail, ?_, ?_⟩⟩
        · rw [htmlWrites_pair, htmlShell_report_split]
        · rw [htmlWrites_pair, htmlShell_report_split]

/-! ## Claim C10: unrecognized sides count but do not sum -/

/-- C10: a selected-month trade whose normalized side is neither "BUY"
nor "SELL" (the raw uppercased pass-through of `normalize_side`) is
counted in `trade_count` and appears in the CSV side-file, yet belongs
to neither side filter, so removing it changes neither `buy_total` nor
`sell_total`. -/
theorem unrecognized_side_counted_not_summed (trades : List NormalizedTrade)
    (t : NormalizedTrade) (hne : trades ≠ []) (ht : t ∈ selectedRows trades)
    (hb : t.side ≠ "BUY") (hs : t.side ≠ "SELL") :
    (aggregate trades).trade_count = (selectedRows trades).length
    ∧ toCsvRow t ∈ monthCsv (selectedRows trades)
    ∧ t ∉ (selectedRows trades).filter (fun u => u.side == "BUY")
    ∧ t ∉ (selectedRows trades).filter (fun u => u.side == "SELL")
    ∧ (aggregate trades).buy_total
        = sumAmounts (((selectedRows trades).erase t).filter (fun u => u.side == "BUY"))
    ∧ (aggregate trades).sell_total
        = sumAmounts (((selectedRows trades).erase t).filter (fun u => u.side == "SELL")) := by
  refine ⟨rfl, ?_, ?_, ?_, ?_, ?_⟩
  · unfold monthCsv
    exact List.mem_map_of_mem _ ((sortByDt_perm _).mem_iff.mpr ht)
  · intro hmem
    exact hb (by simpa using (List.mem_filter.mp hmem).2)
  · intro hmem
    exact hs (by simpa using (List.mem_filter.mp hmem).2)
  · show sumAmounts ((selectedRows trades).filter (fun u => u.side == "BUY")) = _
    rw [filter_erase_of_false (by simpa using hb) (selectedRows trades)]
  · show sumAmounts ((selectedRows trades).filter (fun u => u.side == "SELL")) = _
    rw [filter_erase_of_false (by simpa using hs) (selectedRows trades)]

/-- Witness for C10 with a "TRANSFER"-side trade among the selected
month's rows. -/
theorem unrecognized_side_counted_not_summed_concrete :
    (aggregate [sampleBuy, sampleSell, oddTrade]).trade_count
        = (selectedRows [sampleBuy, sampleSell, oddTrade]).length
    ∧ toCsvRow oddTrade ∈ monthCsv (selectedRows [sampleBuy, sampleSell, oddTrade])
    ∧ oddTrade ∉ (selectedRows [sampleBuy, sampleSell, oddTrade]).filter
        (fun u => u.side == "BUY")
    ∧ oddTrade ∉ (selectedRows [sampleBuy, sampleSell, oddTrade]).filter
        (fun u => u.side == "SELL")
    ∧ (aggregate [sampleBuy, sampleSell, oddTrade]).buy_total
        = sumAmounts (((selectedRows [sampleBuy, sampleSell, oddTrade]).erase oddTrade).filter
            (fun u => u.side == "BUY"))
    ∧ (aggregate [sampleBuy, sampleSell, oddTrade]).sell_total
        = sumAmounts (((selectedRows [sampleBuy, sampleSell, oddTrade]).erase oddTrade).filter
            (fun u => u.side == "SELL")) :=
  unrecognized_side_counted_not_summed [sampleBuy, sampleSell, oddTrade] oddTrade
    (List.cons_ne_nil _ _) (by decide) (by decide) (by decide)
